import Mathlib

/-!
Verification of the generator/coroutine mechanism of `coroutines.cpp`.

The file shallowly embeds the three demo namespaces of the source:

* `p1` — an infinite counter coroutine driven and destroyed manually
  (lines 29–140 of the source);
* `p2` — a bounded counter that yields values through `promise::value_`
  and returns a terminal string through `promise::ret_` (lines 144–223);
* `p3` — the generic `Generator<T>` template with its `fill`-based
  freshness guard, exception capture and RAII disposal (lines 226–326).

C++ coroutine frames are modelled as explicit state records; a generator
body is a function from its local variables to the outcome of running it
until the next suspension point (`co_yield`), normal completion
(`return_void`) or an escaped exception (`unhandled_exception`).  Console
output of a body is recorded in an `out` trace, and a ghost `resumes`
counter counts successful resumptions of the frame.
-/

/-- Faults that can surface to the driving code: a body exception
re-raised by `Generator::fill` (`std::rethrow_exception`, line 302), or an
attempt to resume an already-completed coroutine. -/
inductive Fault where
  | bodyFault (e : Nat)
  | invalidResume
deriving DecidableEq, Repr

/-- Outcome of running a generator body from one suspension point to the
next event.  `yield` models `co_yield v` (after printing `outs`), `ret`
models falling off the end / `co_return` (`return_void`), `raise` models
an exception `e` escaping the body.  `next` is the body's local state at
the event. -/
inductive BodyStep (σ T : Type) where
  | yield (outs : List Nat) (v : T) (next : σ)
  | ret (outs : List Nat) (next : σ)
  | raise (outs : List Nat) (e : Nat) (next : σ)
deriving DecidableEq, Repr

/-- The heap-allocated coroutine frame of a `p3::Generator` coroutine:
body locals, the promise slots `value_` and `exception_` (lines 236–237;
`value_` is `none` while the default-constructed slot has never been
assigned by `yield_value`), the `done()` flag of the handle, and two
ghost observation fields: `resumes` counts successful resumptions and
`out` records the numbers the body printed. -/
structure CoroState (σ T : Type) where
  locals : σ
  value_ : Option T
  exception_ : Option Nat
  done : Bool
  resumes : Nat
  out : List Nat
deriving DecidableEq, Repr

/-- The `p3::Generator` object: the aggregated coroutine handle's frame
`st` and the freshness flag `full_` (line 293, initially `false`). -/
structure Generator (σ T : Type) where
  st : CoroState σ T
  full_ : Bool
deriving DecidableEq, Repr

/-- Construction of a `p3` generator object.  `initial_suspend` returns
`std::suspend_always` (line 240), so the frame is created suspended
before any body statement has run: no output, no yielded value, no
resumption. -/
def mkGenerator {σ T : Type} (s0 : σ) : Generator σ T :=
  { st := { locals := s0, value_ := none, exception_ := none,
            done := false, resumes := 0, out := [] }
    full_ := false }

/-- Resuming the coroutine handle (`h_()`).  Modelled from the spec:
resuming an already-completed coroutine is undefined behaviour in C++
(no code of the repository defines it); the spec names this condition
`InvalidStateError`, so it is modelled as the error `Fault.invalidResume`
that runs no body code.  On a suspended frame the body runs to its next
event: a `co_yield` stores the value in `value_` (`yield_value`, lines
250–254), completion sets `done`, and an escaping exception is captured
into `exception_` by `unhandled_exception` (line 246) after which the
frame reaches its final suspend point (`done` becomes true). -/
def resume {σ T : Type} (body : σ → BodyStep σ T) (st : CoroState σ T) :
    Except Fault (CoroState σ T) :=
  if st.done then .error .invalidResume
  else .ok (match body st.locals with
    | .yield os v s =>
        { st with locals := s, value_ := some v,
                  resumes := st.resumes + 1, out := st.out ++ os }
    | .ret os s =>
        { st with locals := s, done := true,
                  resumes := st.resumes + 1, out := st.out ++ os }
    | .raise os e s =>
        { st with locals := s, exception_ := some e, done := true,
                  resumes := st.resumes + 1, out := st.out ++ os })

/-- `Generator::fill` (lines 295–306).  If `full_` is set the call is a
no-op.  Otherwise it resumes the coroutine, re-raises a captured body
exception (in which case the assignment `full_ = true` is skipped, so
`full_` stays `false`), and otherwise marks the stored value fresh.  The
returned pair is the generator object after the call together with the
fault it raised, if any. -/
def fill {σ T : Type} (body : σ → BodyStep σ T) (g : Generator σ T) :
    Generator σ T × Option Fault :=
  if g.full_ then (g, none)
  else
    match resume body g.st with
    | .error f => (g, some f)
    | .ok st' =>
        match st'.exception_ with
        | some e => ({ g with st := st' }, some (.bodyFault e))
        | none => ({ st := st', full_ := true }, none)

/-- `Generator::operator bool` (lines 272–275): fill, then report whether
the coroutine is still alive (`!h_.done()`).  A fault raised by `fill`
propagates to the caller as an error. -/
def advanceAndCheck {σ T : Type} (body : σ → BodyStep σ T) (g : Generator σ T) :
    Generator σ T × Except Fault Bool :=
  match fill body g with
  | (g', some f) => (g', .error f)
  | (g', none) => (g', .ok (!g'.st.done))

/-- `Generator::operator()` (lines 280–284): fill, clear the freshness
flag, and move out the stored `value_`.  A fault raised by `fill`
propagates to the caller as an error. -/
def nextValue {σ T : Type} (body : σ → BodyStep σ T) (g : Generator σ T) :
    Generator σ T × Except Fault (Option T) :=
  match fill body g with
  | (g', some f) => (g', .error f)
  | (g', none) => ({ g' with full_ := false }, .ok g'.st.value_)

/-- Body of `p3::counter(max)` (lines 309–314): from loop counter `i`,
either print `i` and `co_yield i` (when `i < max`) or fall off the end
of the function. -/
def counterBody (max : Nat) (i : Nat) : BodyStep Nat Nat :=
  if i < max then .yield [i] i (i + 1) else .ret [] i

/-- The generator object returned by calling `p3::counter max`: a lazily
started frame whose loop counter starts at `0`. -/
def counterGen (max : Nat) : Generator Nat Nat :=
  mkGenerator 0

/-- Result of the `p3::main`-style drive loop: the values obtained by
`operator()`, the results of the successive `operator bool` checks, the
final generator object and the first propagated fault, if any. -/
structure DriveResult (σ T : Type) where
  vals : List (Option T)
  checks : List Bool
  g : Generator σ T
  fault : Option Fault
deriving DecidableEq, Repr

/-- The drive loop of `p3::main` (lines 317–321): `while (gen)` read
`gen()`.  `fuel` bounds the number of loop-condition checks. -/
def drive {σ T : Type} (body : σ → BodyStep σ T) :
    Generator σ T → Nat → DriveResult σ T
  | g, 0 => ⟨[], [], g, none⟩
  | g, fuel + 1 =>
    match advanceAndCheck body g with
    | (g', .error f) => ⟨[], [], g', some f⟩
    | (g', .ok false) => ⟨[], [false], g', none⟩
    | (g', .ok true) =>
      match nextValue body g' with
      | (g'', .error f) => ⟨[], [true], g'', some f⟩
      | (g'', .ok v) =>
        let r := drive body g'' fuel
        ⟨v :: r.vals, true :: r.checks, r.g, r.fault⟩

/-- The state of the `counter max` generator after its first `k` values
have been produced and consumed: loop counter `k`, last consumed value
still in the slot, `k` resumptions so far, `0, …, k-1` printed, not
fresh. -/
def genAt (k : Nat) : Generator Nat Nat :=
  { st := { locals := k, value_ := if k = 0 then none else some (k - 1),
            exception_ := none, done := false, resumes := k,
            out := List.range k }
    full_ := true }

/-- The state of the `counter max` generator after exhaustion: the final
resumption ran the loop's exit path, `done` is set and `full_` was set by
`fill` with the slot left unchanged. -/
def genFinal (max : Nat) : Generator Nat Nat :=
  { st := { locals := max, value_ := if max = 0 then none else some (max - 1),
            exception_ := none, done := true, resumes := max + 1,
            out := List.range max }
    full_ := true }

/-- A generator body that immediately raises failure `7`, used to
instantiate the failure-propagation theorems at a concrete input. -/
def failBody : Nat → BodyStep Nat Nat := fun s => .raise [] 7 s

/-- A concrete completed coroutine frame (the frame of `counter 0` after
its single resumption ran the body to its end). -/
def doneState : CoroState Nat Nat :=
  { locals := 0, value_ := none, exception_ := none, done := true,
    resumes := 1, out := [] }

/-- A concrete generator object wrapping a completed frame whose stored
value has already been consumed (`full_` cleared). -/
def doneGen : Generator Nat Nat := { st := doneState, full_ := false }

/-- A concrete generator object holding a fresh, unconsumed value. -/
def freshGen : Generator Nat Nat :=
  { st := { locals := 1, value_ := some 0, exception_ := none,
            done := false, resumes := 1, out := [0] }
    full_ := true }

/-- The two suspension policies of the source: `std::suspend_always` and
`std::suspend_never`, as returned by the `initial_suspend` and
`final_suspend` members of the three promise types. -/
inductive SuspendPolicy where
  | always
  | never
deriving DecidableEq, Repr

/-- `p1::promise::initial_suspend` returns `std::suspend_always`
(line 72). -/
def p1InitialSuspend : SuspendPolicy := .always

/-- `p1::promise::final_suspend` returns `std::suspend_always`
(line 96). -/
def p1FinalSuspend : SuspendPolicy := .always

/-- `p2::promise::initial_suspend` returns `std::suspend_never`
(line 164). -/
def p2InitialSuspend : SuspendPolicy := .never

/-- `p2::promise::final_suspend` returns `std::suspend_always`
(line 165). -/
def p2FinalSuspend : SuspendPolicy := .always

/-- `p3::Generator::promise_type::initial_suspend` returns
`std::suspend_always` (line 240). -/
def p3InitialSuspend : SuspendPolicy := .always

/-- Modelled from the spec: "eager" start behaviour — "run immediately
to first suspension point" before the constructor call returns — is an
initial-suspend policy of `suspend_never`. -/
def specEagerStart : SuspendPolicy := .never

/-- Modelled from the spec: "lazy" start behaviour — "suspend
immediately after creation" — is an initial-suspend policy of
`suspend_always`. -/
def specLazyStart : SuspendPolicy := .always

/-- Modelled from the spec: the end behaviour "auto-dispose immediately
on completion (state is gone; no further reads possible)" is a
final-suspend policy of `suspend_never`. -/
def specAutoDispose : SuspendPolicy := .never

/-- Modelled from the spec: the end behaviour "suspend after completion,
preserving outputs for later reading" is a final-suspend policy of
`suspend_always`. -/
def specSuspendAfterCompletion : SuspendPolicy := .always

/-- Frame of the `p1::counter` coroutine: the loop counter `i` (the
number of completed loop iterations, i.e. of values printed so far), the
numbers printed by the body, and the `done()` flag. -/
structure P1St where
  i : Nat
  printed : List Nat
  done : Bool
deriving DecidableEq, Repr

/-- `p1::counter()` (lines 112–127): `initial_suspend` is
`suspend_always`, so the frame is created suspended before the loop has
run at all. -/
def p1Construct : P1St := ⟨0, [], false⟩

/-- Resuming the `p1` coroutine (`h()`): one loop iteration runs — the
body prints `i` and suspends at `co_await std::suspend_always()`; the
loop never exits, so `done` is never set.  Resuming a completed frame is
undefined behaviour in C++, modelled as `Fault.invalidResume` as in
`resume`. -/
def p1Resume (s : P1St) : Except Fault P1St :=
  if s.done then .error .invalidResume
  else .ok { i := s.i + 1, printed := s.printed ++ [s.i], done := false }

/-- The loop of `p1::main` (lines 131–134): `k` iterations, each
printing the driver's own counter `i` and then resuming the coroutine.
Returns the driver's printed numbers and the final frame. -/
def p1MainLoop : Nat → Nat → P1St → List Nat × P1St
  | 0, _, s => ([], s)
  | k + 1, i, s =>
    match p1Resume s with
    | .error _ => ([i], s)
    | .ok s' =>
      let r := p1MainLoop k (i + 1) s'
      (i :: r.1, r.2)

/-- `p1::main` (lines 129–139): construct the coroutine, run the loop 3
times, then `h.destroy()`.  The components are: the driver's printed
numbers, the frame at the moment of `h.destroy()`, and whether the
destroy happened while the coroutine was suspended mid-body (not
`done`). -/
def p1MainRun : List Nat × P1St × Bool :=
  let r := p1MainLoop 3 0 p1Construct
  (r.1, r.2, !r.2.done)

/-- Frame of the `p2::counter` coroutine: loop counter, the promise
slots `value_` (line 154; `none` while the default-constructed slot has
never been assigned) and `ret_` (line 158), the `done()` flag, the
numbers printed inside the loop, and whether the final
`coroutine: ending` line was printed. -/
structure P2St where
  i : Nat
  value_ : Option Nat
  ret_ : String
  done : Bool
  genPrinted : List Nat
  endPrinted : Bool
deriving DecidableEq, Repr

/-- Run the `p2::counter(max)` body (lines 188–197) from the top of its
loop with counter `i`: either print and `co_yield i` (suspending with
`value_ = i`), or — when `i = max` — print the ending line and
`co_return "maximum value reached"` (line 196), which stores the string
via `return_value` (line 169) and completes the coroutine
(`final_suspend` is `suspend_always`, so the frame survives). -/
def p2FromLoopHead (max i : Nat) (s : P2St) : P2St :=
  if i < max then
    { s with i := i, value_ := some i, genPrinted := s.genPrinted ++ [i] }
  else
    { s with i := i, ret_ := "maximum value reached", done := true,
             endPrinted := true }

/-- Calling `p2::counter(max)`: `initial_suspend` is `suspend_never`
(line 164), so the body runs immediately up to its first suspension
point (or to completion when `max = 0`) before the call returns. -/
def p2Counter (max : Nat) : P2St :=
  p2FromLoopHead max 0 ⟨0, none, "", false, [], false⟩

/-- Resuming the `p2` coroutine (`h()`): continue past the `co_yield`,
increment the loop counter and run to the next loop-head event.
Resuming a completed frame is undefined behaviour in C++, modelled as
`Fault.invalidResume`. -/
def p2Resume (max : Nat) (s : P2St) : Except Fault P2St :=
  if s.done then .error .invalidResume
  else .ok (p2FromLoopHead max (s.i + 1) s)

/-- The loop of `p2::main` (lines 208–214): `while (!h.done())` print
the current `value_` and then resume.  Returns the observed values and
the final frame. -/
def p2MainLoop (max : Nat) : Nat → P2St → List (Option Nat) × P2St
  | 0, s => ([], s)
  | fuel + 1, s =>
    if s.done then ([], s)
    else
      match p2Resume max s with
      | .error _ => ([s.value_], s)
      | .ok s' =>
        let r := p2MainLoop max fuel s'
        (s.value_ :: r.1, r.2)

/-- `p2::main` (lines 199–222): drive `counter(3)` to completion, then
read `p.ret_` (line 218) and `h.destroy()`.  Components: values the
driver observed, the returned string read after the loop, and the
`done()` flag at the moment of destruction. -/
def p2MainRun : List (Option Nat) × String × Bool :=
  let r := p2MainLoop 3 4 (p2Counter 3)
  (r.1, r.2.ret_, r.2.done)

/-- Driver-visible events of a `p3` drive: a pull on the generator
(an `operator bool` / `operator()` interaction) or a disposal of the
coroutine frame (`h_.destroy()`). -/
inductive DriverEvent where
  | pulled
  | disposed
deriving DecidableEq, Repr

/-- The events of `Generator::~Generator` (line 263): the destructor
body is exactly one `h_.destroy()` call, releasing the heap frame. -/
def destructorEvents {σ T : Type} (_ : Generator σ T) : List DriverEvent :=
  [.disposed]

/-- Events of the driver loop itself: one `pulled` per iteration.  The
loop ends when the generator is exhausted, when a fault propagates out
of it, or — modelling an early `return` in the driver — when the
optional `limit` reaches zero.  The loop itself never disposes the
frame. -/
def driveEvents {σ T : Type} (body : σ → BodyStep σ T) :
    Generator σ T → Option Nat → Nat → List DriverEvent
  | _, _, 0 => []
  | g, limit, fuel + 1 =>
    if limit = some 0 then []
    else
      match advanceAndCheck body g with
      | (_, .error _) => [.pulled]
      | (_, .ok false) => [.pulled]
      | (g', .ok true) =>
        match nextValue body g' with
        | (_, .error _) => [.pulled]
        | (g'', .ok _) =>
          .pulled :: driveEvents body g'' (limit.map (· - 1)) fuel

/-- A scoped driver run: the loop's events followed by the events of the
`Generator` destructor, which C++ runs on every exit path of the
driver's scope — normal completion, early return and propagated
exception alike. -/
def scopedDriveEvents {σ T : Type} (body : σ → BodyStep σ T)
    (g : Generator σ T) (limit : Option Nat) (fuel : Nat) :
    List DriverEvent :=
  driveEvents body g limit fuel ++ destructorEvents g

/-- The consumed state with no values yet produced is the freshly
constructed generator. -/
theorem genAt_zero (max : Nat) : { genAt 0 with full_ := false } = counterGen max := rfl

/-- One `operator bool` on a consumed `counter` state with `k < max`:
the coroutine resumes once, yields `k`, and the check reports alive. -/
theorem counter_check_step (max k : Nat) (hk : k < max) :
    advanceAndCheck (counterBody max) { genAt k with full_ := false } =
      (genAt (k + 1), .ok true) := by
  simp [advanceAndCheck, fill, resume, counterBody, genAt, hk, List.range_succ]

/-- One `operator()` on a fresh `counter` state: the freshness guard
skips the resumption and the stored value `k` is handed out. -/
theorem counter_read_step (max k : Nat) :
    nextValue (counterBody max) (genAt (k + 1)) =
      ({ genAt (k + 1) with full_ := false }, .ok (some k)) := by
  simp [nextValue, fill, genAt]

/-- One `operator bool` on the consumed state with all `max` values
consumed: the final resumption runs the body to its end, `done()` turns
true, and the check reports exhaustion. -/
theorem counter_final_step (max : Nat) :
    advanceAndCheck (counterBody max) { genAt max with full_ := false } =
      (genFinal max, .ok false) := by
  simp [advanceAndCheck, fill, resume, counterBody, genAt, genFinal]

/-- Driving `counter max` from the state with `k` values consumed yields
the remaining values `k, …, max-1`, with every check but the last
reporting the generator alive. -/
theorem drive_counter_from (max : Nat) :
    ∀ m k, k + m = max →
      drive (counterBody max) { genAt k with full_ := false } (m + 1) =
        ⟨(List.range' k m).map some, List.replicate m true ++ [false],
          genFinal max, none⟩ := by
  intro m
  induction m with
  | zero =>
      intro k hk
      simp only [Nat.add_zero] at hk
      subst hk
      simp [drive, counter_final_step]
  | succ m ih =>
      intro k hk
      have hklt : k < max := by omega
      have hIH := ih (k + 1) (by omega)
      generalize hn : m + 1 = n at hIH ⊢
      simp only [drive, counter_check_step max k hklt, counter_read_step, hIH]
      subst hn
      simp [List.range'_succ, List.replicate_succ]

/-- C1: driving the generator returned by `p3::counter N` to exhaustion
with the `while (gen) gen()` loop of `p3::main` yields exactly the `N`
values `0, …, N-1` in order, one per `operator()` call; the first `N`
`operator bool` checks report the generator alive, and only the
`(N+1)`-st check — which performs one further resumption, running the
body to its end — reports exhaustion, for `N + 1` resumptions in total
and no fault. -/
theorem counter_drive_exhaustion (N : Nat) :
    (drive (counterBody N) (counterGen N) (N + 1)).vals =
        (List.range N).map some ∧
    (drive (counterBody N) (counterGen N) (N + 1)).checks =
        List.replicate N true ++ [false] ∧
    (drive (counterBody N) (counterGen N) (N + 1)).g.st.done = true ∧
    (drive (counterBody N) (counterGen N) (N + 1)).g.st.resumes = N + 1 ∧
    (drive (counterBody N) (counterGen N) (N + 1)).fault = none := by
  have h := drive_counter_from N N 0 (by omega)
  rw [genAt_zero N] at h
  rw [h]
  refine ⟨?_, rfl, rfl, rfl, rfl⟩
  rw [List.range_eq_range']

/-- One `operator()` on a consumed `counter` state with `k < max`: the
coroutine resumes once and the newly yielded value `k` is handed out. -/
theorem counter_consume_step (max k : Nat) (hk : k < max) :
    nextValue (counterBody max) { genAt k with full_ := false } =
      ({ genAt (k + 1) with full_ := false }, .ok (some k)) := by
  simp [nextValue, fill, resume, counterBody, genAt, hk, List.range_succ]

/-- C2: a failure raised by the generator body during the resumption
triggered by `operator bool` or `operator()` is captured into
`exception_` and re-raised as the same failure to the caller; it is
never silently swallowed by the generic handle. -/
theorem body_fault_reraised {σ T : Type} (body : σ → BodyStep σ T)
    (g : Generator σ T) (os : List Nat) (e : Nat) (s : σ)
    (hfull : g.full_ = false) (hdone : g.st.done = false)
    (hbody : body g.st.locals = .raise os e s) :
    (advanceAndCheck body g).2 = .error (.bodyFault e) ∧
    (advanceAndCheck body g).1.st.exception_ = some e ∧
    (nextValue body g).2 = .error (.bodyFault e) ∧
    (nextValue body g).1.st.exception_ = some e := by
  simp [advanceAndCheck, nextValue, fill, resume, hfull, hdone, hbody]

/-- Witness for `body_fault_reraised`: a body that raises failure `7`
at once, on a freshly constructed generator. -/
theorem body_fault_reraised_witness :
    (advanceAndCheck failBody (mkGenerator 0)).2 = .error (.bodyFault 7) ∧
    (advanceAndCheck failBody (mkGenerator 0)).1.st.exception_ = some 7 ∧
    (nextValue failBody (mkGenerator 0)).2 = .error (.bodyFault 7) ∧
    (nextValue failBody (mkGenerator 0)).1.st.exception_ = some 7 :=
  body_fault_reraised failBody (mkGenerator 0) [] 7 0 rfl rfl rfl

/-- C3 counterexample: on `counter 3`, two consecutive `operator()`
calls with no intervening `operator bool` return `0` and then `1`: the
second call resumes the body anew instead of repeating the first value,
because `operator()` cleared `full_`. -/
theorem nextValue_twice_differs :
    (nextValue (counterBody 3) (counterGen 3)).2 = .ok (some 0) ∧
    (nextValue (counterBody 3)
        (nextValue (counterBody 3) (counterGen 3)).1).2 = .ok (some 1) ∧
    (nextValue (counterBody 3)
        (nextValue (counterBody 3) (counterGen 3)).1).2 ≠
      (nextValue (counterBody 3) (counterGen 3)).2 := by
  refine ⟨rfl, rfl, ?_⟩
  have h1 : (nextValue (counterBody 3) (counterGen 3)).2 = .ok (some 0) := rfl
  have h2 : (nextValue (counterBody 3)
      (nextValue (counterBody 3) (counterGen 3)).1).2 = .ok (some 1) := rfl
  rw [h1, h2]
  simp

/-- C3 amended: calling `next_value()` twice in a row with no
intervening `advance_and_check()` does not repeat the first value: the
second call triggers one new resumption and returns the next value in
yield order, so no value is skipped or duplicated. -/
theorem nextValue_twice_consecutive (N k : Nat) (h : k + 1 < N) :
    (nextValue (counterBody N) { genAt k with full_ := false }).2 =
      .ok (some k) ∧
    (nextValue (counterBody N)
        (nextValue (counterBody N) { genAt k with full_ := false }).1).2 =
      .ok (some (k + 1)) ∧
    (nextValue (counterBody N)
        (nextValue (counterBody N) { genAt k with full_ := false }).1).1.st.resumes
      = k + 2 := by
  rw [counter_consume_step N k (by omega)]
  rw [counter_consume_step N (k + 1) h]
  exact ⟨rfl, rfl, rfl⟩

/-- Witness for `nextValue_twice_consecutive` at `N = 3`, `k = 0`, where
the starting state is the freshly constructed generator. -/
theorem nextValue_twice_consecutive_witness :
    (nextValue (counterBody 3) { genAt 0 with full_ := false }).2 =
      .ok (some 0) ∧
    (nextValue (counterBody 3)
        (nextValue (counterBody 3) { genAt 0 with full_ := false }).1).2 =
      .ok (some 1) ∧
    (nextValue (counterBody 3)
        (nextValue (counterBody 3) { genAt 0 with full_ := false }).1).1.st.resumes
      = 2 :=
  nextValue_twice_consecutive 3 0 (by decide)

/-- C6: with a lazy initial suspension (`suspend_always`), constructing
a generator executes no statement of the body — no output, no stored
yielded value, no resumption — for any body and any initial locals; the
body runs for the first time only at the first `advance_and_check`
resumption (the ghost counter then reads `1`).  The same holds for the
lazily started `p1` coroutine. -/
theorem lazy_start_no_body_side_effects (σ T : Type)
    (body : σ → BodyStep σ T) (s0 : σ) :
    (mkGenerator s0 : Generator σ T).st.out = [] ∧
    (mkGenerator s0 : Generator σ T).st.value_ = none ∧
    (mkGenerator s0 : Generator σ T).st.resumes = 0 ∧
    (advanceAndCheck body (mkGenerator s0)).1.st.resumes = 1 ∧
    p1Construct.printed = [] ∧
    p1Construct.i = 0 ∧
    p3InitialSuspend = specLazyStart := by
  refine ⟨rfl, rfl, rfl, ?_, rfl, rfl, rfl⟩
  cases hb : body s0 <;>
    simp [advanceAndCheck, fill, resume, mkGenerator, hb]

/-- If `fill` completes without raising, the resulting generator is
fresh: `full_` is set. -/
theorem fill_none_full {σ T : Type} (body : σ → BodyStep σ T)
    (g g' : Generator σ T) (h : fill body g = (g', none)) :
    g'.full_ = true := by
  unfold fill at h
  split at h
  · next hfull =>
      cases h
      exact hfull
  · split at h
    · cases h
    · split at h
      · cases h
      · cases h
        rfl

/-- C7: the freshness guard of `fill`: while the most recent value is
unconsumed (`full_` set), `operator bool` does not resume the body — it
leaves the generator untouched; and after any successful
`operator bool`, `full_` is set, so any number of further consecutive
checks return the same result without another resumption: consecutive
checks cause at most one resumption in total. -/
theorem check_no_double_resume (σ T : Type) (body : σ → BodyStep σ T) :
    (∀ g : Generator σ T, g.full_ = true →
        advanceAndCheck body g = (g, .ok (!g.st.done))) ∧
    (∀ (g g' : Generator σ T) (b : Bool),
        advanceAndCheck body g = (g', .ok b) →
        g'.full_ = true ∧ advanceAndCheck body g' = (g', .ok b)) := by
  have hfresh : ∀ g : Generator σ T, g.full_ = true →
      advanceAndCheck body g = (g, .ok (!g.st.done)) := by
    intro g hg
    simp [advanceAndCheck, fill, hg]
  refine ⟨hfresh, ?_⟩
  intro g g' b h
  unfold advanceAndCheck at h
  rcases hf : fill body g with ⟨g2, f2⟩
  rw [hf] at h
  cases f2 with
  | some f => cases h
  | none =>
      rw [Prod.mk.injEq] at h
      obtain ⟨rfl, h2⟩ := h
      injection h2 with h2
      subst h2
      exact ⟨fill_none_full body g _ hf, hfresh _ (fill_none_full body g _ hf)⟩

/-- Witness for `check_no_double_resume`: on a concrete fresh generator
the check is the identity and reports alive. -/
theorem check_no_double_resume_witness :
    advanceAndCheck (counterBody 3) freshGen = (freshGen, .ok true) :=
  (check_no_double_resume Nat Nat (counterBody 3)).1 freshGen rfl

/-- C8: resuming a completed coroutine frame is an invalid-state error
that runs no body code (the frame is left untouched by `fill`), and the
`done` flag is monotone: once true it stays true across `fill`,
`operator bool` and `operator()`. -/
theorem completed_resume_invalid (σ T : Type) (body : σ → BodyStep σ T) :
    (∀ st : CoroState σ T, st.done = true →
        resume body st = .error .invalidResume) ∧
    (∀ g : Generator σ T, g.st.done = true → g.full_ = false →
        fill body g = (g, some .invalidResume)) ∧
    (∀ g : Generator σ T, g.st.done = true →
        (fill body g).1.st.done = true ∧
        (advanceAndCheck body g).1.st.done = true ∧
        (nextValue body g).1.st.done = true) := by
  have hres : ∀ st : CoroState σ T, st.done = true →
      resume body st = .error .invalidResume := by
    intro st h
    simp [resume, h]
  refine ⟨hres, ?_, ?_⟩
  · intro g hd hf
    simp [fill, hf, hres g.st hd]
  · intro g hd
    by_cases hf : g.full_ = true
    · simp [fill, advanceAndCheck, nextValue, hf, hd]
    · have hf' : g.full_ = false := by simpa using hf
      simp [fill, advanceAndCheck, nextValue, hf', hres g.st hd, hd]

/-- Witness for `completed_resume_invalid` on a concrete completed
frame. -/
theorem completed_resume_invalid_witness :
    resume (counterBody 0) doneState = .error .invalidResume ∧
    fill (counterBody 0) doneGen = (doneGen, some .invalidResume) ∧
    (nextValue (counterBody 0) doneGen).1.st.done = true :=
  ⟨(completed_resume_invalid Nat Nat (counterBody 0)).1 doneState rfl,
   (completed_resume_invalid Nat Nat (counterBody 0)).2.1 doneGen rfl rfl,
   ((completed_resume_invalid Nat Nat (counterBody 0)).2.2 doneGen rfl).2.2⟩

/-- C10: after a body failure is re-raised by `fill`, the freshness flag
`full_` is still `false` (the assignment was skipped by the throw) while
the coroutine is already at its final suspend point (`done`); hence the
very next `operator bool` or `operator()` does not take the guarded
already-fresh branch but attempts to resume the finished coroutine,
reaching the error path of `fill` a second time. -/
theorem post_fault_state_unguarded {σ T : Type} (body : σ → BodyStep σ T)
    (g : Generator σ T) (os : List Nat) (e : Nat) (s : σ)
    (hfull : g.full_ = false) (hdone : g.st.done = false)
    (hbody : body g.st.locals = .raise os e s) :
    (nextValue body g).2 = .error (.bodyFault e) ∧
    (nextValue body g).1.full_ = false ∧
    (nextValue body g).1.st.done = true ∧
    advanceAndCheck body (nextValue body g).1 =
      ((nextValue body g).1, .error .invalidResume) ∧
    nextValue body (nextValue body g).1 =
      ((nextValue body g).1, .error .invalidResume) := by
  simp [nextValue, advanceAndCheck, fill, resume, hfull, hdone, hbody]

/-- Witness for `post_fault_state_unguarded`: the immediately failing
body on a freshly constructed generator. -/
theorem post_fault_state_unguarded_witness :
    (nextValue failBody (mkGenerator 0)).2 = .error (.bodyFault 7) ∧
    (nextValue failBody (mkGenerator 0)).1.full_ = false ∧
    (nextValue failBody (mkGenerator 0)).1.st.done = true ∧
    advanceAndCheck failBody (nextValue failBody (mkGenerator 0)).1 =
      ((nextValue failBody (mkGenerator 0)).1, .error .invalidResume) ∧
    nextValue failBody (nextValue failBody (mkGenerator 0)).1 =
      ((nextValue failBody (mkGenerator 0)).1, .error .invalidResume) :=
  post_fault_state_unguarded failBody (mkGenerator 0) [] 7 0 rfl rfl rfl

/-- C4 counterexample: the `p1` infinite-counter demo is not configured
eager-start with auto-dispose: its `initial_suspend` policy is
`suspend_always`, not the `suspend_never` an eager start requires (so
construction runs no body code and prints nothing), and its
`final_suspend` policy is `suspend_always`, not the `suspend_never` that
auto-dispose on completion requires. -/
theorem p1_not_eager_autodispose :
    p1InitialSuspend ≠ specEagerStart ∧
    p1FinalSuspend ≠ specAutoDispose ∧
    p1Construct.printed = [] := by
  refine ⟨?_, ?_, rfl⟩ <;> intro h <;> cases h

/-- C4 amended: the `p1` infinite-counter demo is configured lazy-start
(`suspend_always`) with manual disposal; after exactly 3
driver-initiated resumptions (the body has printed `0,1,2`) the driver
stops pulling and calls `h.destroy()`, `done()` is never true (no
resumption ever completes the loop body), and the destroy happens while
the coroutine is suspended mid-loop. -/
theorem p1_infinite_counter_run :
    p1MainRun = ([0, 1, 2], ⟨3, [0, 1, 2], false⟩, true) ∧
    p1InitialSuspend = specLazyStart ∧
    p1FinalSuspend = specSuspendAfterCompletion ∧
    (∀ s s' : P1St, p1Resume s = .ok s' → s'.done = false) := by
  refine ⟨rfl, rfl, rfl, ?_⟩
  intro s s' h
  unfold p1Resume at h
  split at h
  · cases h
  · cases h
    rfl

/-- Witness for `p1_infinite_counter_run`: the first resumption of the
freshly created `p1` coroutine leaves it uncompleted. -/
theorem p1_infinite_counter_run_witness :
    (⟨1, [0], false⟩ : P1St).done = false :=
  p1_infinite_counter_run.2.2.2 p1Construct ⟨1, [0], false⟩ rfl

/-- C5 counterexample: the `p2` max=3 counting generator is not
configured lazy-start: its `initial_suspend` policy is `suspend_never`,
not the `suspend_always` a lazy start requires, and accordingly body
code has already run at construction — `0` is already printed and
`value_` already holds `0` before any resume. -/
theorem p2_not_lazy :
    p2InitialSuspend ≠ specLazyStart ∧
    (p2Counter 3).genPrinted = [0] ∧
    (p2Counter 3).value_ = some 0 := by
  refine ⟨?_, rfl, rfl⟩
  intro h
  cases h

/-- C5 amended: the `p2` max=3 counting generator is configured
eager-start (`suspend_never`) with suspend-after-completion; the driver
observes the value sequence `0,1,2`, after exhaustion the stored return
value is the fixed terminal string `maximum value reached`, the handle
is then destroyed at the final suspend point, and no further interaction
is possible: resuming the completed frame is an invalid-state error. -/
theorem p2_counting_run :
    p2MainRun = ([some 0, some 1, some 2], "maximum value reached", true) ∧
    p2InitialSuspend = specEagerStart ∧
    p2FinalSuspend = specSuspendAfterCompletion ∧
    p2Resume 3 (p2MainLoop 3 4 (p2Counter 3)).2 = .error .invalidResume := by
  exact ⟨rfl, rfl, rfl, rfl⟩

/-- The drive loop itself never emits a disposal event: only the
destructor does. -/
theorem driveEvents_no_dispose {σ T : Type} (body : σ → BodyStep σ T) :
    ∀ (fuel : Nat) (g : Generator σ T) (limit : Option Nat),
      (driveEvents body g limit fuel).count DriverEvent.disposed = 0 := by
  intro fuel
  induction fuel with
  | zero =>
      intro g limit
      simp [driveEvents]
  | succ n ih =>
      intro g limit
      rw [driveEvents]
      split
      · simp
      · rcases h1 : advanceAndCheck body g with ⟨g', r⟩
        rcases r with f | b
        · simp [h1, List.count_cons]
        · cases b
          · simp [h1, List.count_cons]
          · rcases h2 : nextValue body g' with ⟨g'', r2⟩
            rcases r2 with f2 | v
            · simp [h1, h2, List.count_cons]
            · simp [h1, h2, List.count_cons, ih]

/-- C9: over a scoped driver run — whether the loop runs the generator
to exhaustion, the driver returns early after `limit` pulls, or a fault
propagates out of a pull — the `Generator` destructor's `h_.destroy()`
is the only disposal and it happens exactly once, so the heap-allocated
coroutine frame is always released. -/
theorem scoped_run_disposes_once (σ T : Type) (body : σ → BodyStep σ T)
    (g : Generator σ T) (limit : Option Nat) (fuel : Nat) :
    (scopedDriveEvents body g limit fuel).count DriverEvent.disposed = 1 := by
  simp [scopedDriveEvents, destructorEvents, List.count_append,
    driveEvents_no_dispose]
